import Mathlib

/-!
Shallow embedding of `function/z_corellation_function/value.py` from the
Geology-Analyst-Seismic-non-Seismic repository (the `calc_z` gas
compressibility-factor front end and its helpers).

Modelling conventions:
* Python floats are modelled as exact rationals (`ℚ`).
* A Python `raise` is modelled as `Except.error`; the spec's error taxonomy
  (`UnknownModel`, `UnsupportedParameter`, `UnknownPseudoCriticalModel`,
  `ConvergenceFailure`) names the constructors, and each constructor carries
  the exact message string the Python code formats into its `KeyError` /
  `RuntimeError`.
* The numeric correlation functions (`kareem`, `DAK`, `hall_yarborough`,
  `londono`), `scipy.optimize.newton`, and the `Piper` / `Sutton`
  pseudo-critical classes live outside the embedded file; their behaviour is
  abstracted into an `Env` record of (deterministic, total) functions, so
  every theorem below is quantified over all possible behaviours of that
  outside code.
-/

/-- Error taxonomy for `calc_z`.  In Python all four are raised as
`KeyError` / `RuntimeError`; the constructors follow the spec's names and the
`msg` field carries the exact formatted Python message. -/
inductive CalcErr where
  | unknownModel (msg : String)
  | unsupportedParameter (msg : String)
  | unknownPseudoCriticalModel (msg : String)
  | convergenceFailure (msg : String)
  deriving DecidableEq, Repr

/-- The keys of the `models` dict in the source:
`models = {'DAK': DAK, 'hall_yarborough': hall_yarborough, 'londono': londono, 'kareem': kareem}`. -/
def zmodelNames : List String := ["DAK", "hall_yarborough", "londono", "kareem"]

/-- Source: `zmodels_ks = '["DAK", "hall_yarborough", "londono", "kareem"]'`. -/
def zmodels_ks : String := "[\"DAK\", \"hall_yarborough\", \"londono\", \"kareem\"]"

/-- Source: `pmodels_ks = '["sutton", "piper"]'`. -/
def pmodels_ks : String := "[\"sutton\", \"piper\"]"

/-- One entry of the `MODEL_RANGES` dict: the inclusive `Tr` and `Pr`
validity bounds of a z-correlation model. -/
structure ModelRange where
  Tr_lo : ℚ
  Tr_hi : ℚ
  Pr_lo : ℚ
  Pr_hi : ℚ
  deriving DecidableEq, Repr

/-- The `MODEL_RANGES` dict of the source (0.2 = 1/5, 20.5 = 41/2);
`none` models a `KeyError` on a missing key. -/
def MODEL_RANGES : String → Option ModelRange
  | "DAK" => some ⟨1, 3, 1/5, 30⟩
  | "hall_yarborough" => some ⟨1, 3, 1/5, 41/2⟩
  | "londono" => some ⟨1, 3, 1/5, 30⟩
  | "kareem" => some ⟨1, 3, 1/5, 15⟩
  | _ => none

/-- `lo <= x <= hi` as a boolean, mirroring the two numpy comparisons
combined with `np.logical_and`. -/
def inClosed (lo hi x : ℚ) : Bool := decide (lo ≤ x) && decide (x ≤ hi)

/-- `_check_working_Pr_Tr_range(Pr, Tr, zmodel_str)`.  `Pr` and `Tr` are
array-like (a scalar is the singleton list); `.all()` is the numpy
AND-reduction over all elements, modelled by `List.all`. -/
def _check_working_Pr_Tr_range (Pr Tr : List ℚ) (zmodel_str : String) : Option Bool :=
  (MODEL_RANGES zmodel_str).map fun r =>
    (Pr.all fun x => inClosed r.Pr_lo r.Pr_hi x) && (Tr.all fun x => inClosed r.Tr_lo r.Tr_hi x)

/-- Scalar entry point of the range check as used inside
`_calc_z_explicit_implicit_helper` (there `zmodel_str` is always the literal
`'kareem'`, a key that is present, so the `getD false` default is never
taken). -/
def checkRangeScalar (Pr Tr : ℚ) (zmodel_str : String) : Bool :=
  (_check_working_Pr_Tr_range [Pr] [Tr] zmodel_str).getD false

/-- Kind of a z-correlation model: the source tests `zmodel_str in ['kareem']`
to pick the explicit (direct evaluation) path versus the implicit
(iterative root finding) path. -/
inductive ZModelKind where
  | explicitEval
  | implicitSolveKind
  deriving DecidableEq, Repr

/-- The explicit/implicit classification induced by the source's
`if zmodel_str in ['kareem']` test. -/
def zmodelKindOf (m : String) : ZModelKind :=
  if m ∈ (["kareem"] : List String) then .explicitEval else .implicitSolveKind

/-- The message of the `_get_z_model` `KeyError`:
`'Z-factor model "%s" is not implemented. Choose from the list of available models: %s' % (model, zmodels_ks)`. -/
def unknownZmodelMsg (model : String) : String :=
  "Z-factor model \"" ++ model ++
    "\" is not implemented. Choose from the list of available models: " ++ zmodels_ks

/-- `_get_z_model(model)`: `KeyError` listing the valid names when `model` is
not a key of `models`; otherwise the looked-up model.  The Python value is
the correlation callable itself; numerically it lives in `Env`, so the
embedding returns the model's descriptor kind. -/
def _get_z_model (model : String) : Except CalcErr ZModelKind :=
  if model ∈ zmodelNames then
    .ok (zmodelKindOf model)
  else
    .error (.unknownModel (unknownZmodelMsg model))

/-- The fallback ladder `t = [0.1, 0.2, ..., 1.0]` of
`_construct_guess_list_order`. -/
def guessLadder : List ℚ :=
  [1/10, 2/10, 3/10, 4/10, 5/10, 6/10, 7/10, 8/10, 9/10, 1]

/-- Python's `min(t, key=lambda x: abs(x - guess))`: the FIRST element of `t`
attaining the minimal distance to `guess` (Python `min` keeps the earliest
element on ties). -/
def minKeyAbs (guess : ℚ) : List ℚ → Option ℚ
  | [] => none
  | x :: xs =>
    match minKeyAbs guess xs with
    | none => some x
    | some m => if |m - guess| < |x - guess| then some m else some x

/-- The `while len(t) > 0` loop of `_construct_guess_list_order`: repeatedly
pop the remaining element closest to `guess` and append it.  The fuel
argument is the length of the initial list. -/
def reorderLoop (guess : ℚ) : ℕ → List ℚ → List ℚ
  | 0, _ => []
  | n + 1, t =>
    match minKeyAbs guess t with
    | none => []
    | some m => m :: reorderLoop guess n (t.erase m)

/-- Worker of `dedupFirst` carrying the set of already-seen elements. -/
def dedupFirstAux (seen : List ℚ) : List ℚ → List ℚ
  | [] => []
  | x :: xs => if x ∈ seen then dedupFirstAux seen xs else x :: dedupFirstAux (x :: seen) xs

/-- Model of the Python expression `list(set(xs))`.  CPython's set iteration
order is an undocumented hash-table artifact (for the ladder floats it is
NOT the insertion order); the embedding models the conversion as
first-occurrence deduplication, which agrees with CPython on membership and
multiplicity (each distinct element occurs exactly once).  Theorems below
never rely on the relative ORDER of the deduplicated output being CPython's. -/
def dedupFirst (l : List ℚ) : List ℚ := dedupFirstAux [] l

/-- `_construct_guess_list_order(guess)`: builds
`reordered = [guess] + (ladder reordered by proximity to guess)` and returns
`list(set(reordered))`. -/
def _construct_guess_list_order (guess : ℚ) : List ℚ :=
  dedupFirst (guess :: reorderLoop guess guessLadder.length guessLadder)

/-- The `if guess is None` default of `_calc_z_explicit_implicit_helper`:
0.9 when `Pr < 15`, else 2. -/
def defaultGuess (Pr : ℚ) : ℚ := if Pr < 15 then 9/10 else 2

/-- The `newton_kwargs` dict, keeping the only key the source inspects
(`'maxiter'`). -/
structure NewtonKwargs where
  maxiter : Option ℕ
  deriving DecidableEq, Repr

/-- The `maxiter` actually passed to `scipy.optimize.newton`:
the source default `maxiter = 50` when `newton_kwargs` is absent or has no
`'maxiter'` key, the caller's value otherwise. -/
def maxiterOf : Option NewtonKwargs → ℕ
  | none => 50
  | some k => k.maxiter.getD 50

/-- Arguments forwarded to `Piper()._initialize_Tr_and_Pr` /
`Sutton()._initialize_Tr_and_Pr`. -/
structure PCArgs where
  sg : Option ℚ
  P : Option ℚ
  T : Option ℚ
  H2S : Option ℚ
  CO2 : Option ℚ
  N2 : Option ℚ
  Tr : Option ℚ
  Pr : Option ℚ
  ignore_conflict : Bool
  deriving DecidableEq, Repr

/-- Modelled from the spec: outcome of a pseudo-critical model's
`_initialize_Tr_and_Pr` (the returned `(Tr, Pr)` pair) together with the
instance's `ps_props` attribute read afterwards by `calc_z`.  The files
`function/pseudocritical/piper.py` and `function/pseudocritical/sutton.py`
are not part of the embedded source. -/
structure PCResult where
  Tr : ℚ
  Pr : ℚ
  ps_props : List (String × ℚ)
  deriving DecidableEq, Repr

/-- The numeric code living outside the embedded file, abstracted as
deterministic total functions:
* `kareemEval Pr Tr` — the explicit `kareem(Pr=Pr, Tr=Tr)` correlation
  (`kareem.py` is not part of the embedded source);
* `newton zm g Pr Tr maxiter` — one `scipy.optimize.newton` attempt on the
  residual of implicit model `zm` starting from guess `g`; `some z` is a
  clean return with value `z`, `none` is ANY raised exception (the source's
  bare `except: pass` treats them all alike);
* `piperInit` / `suttonInit` — modelled from the spec: the Piper/Sutton
  pseudo-critical reduction (may itself raise, hence `Except`). -/
structure Env where
  kareemEval : ℚ → ℚ → ℚ
  newton : String → ℚ → ℚ → ℚ → ℕ → Option ℚ
  piperInit : PCArgs → Except CalcErr PCResult
  suttonInit : PCArgs → Except CalcErr PCResult

/-- The guess-sequence construction of `_calc_z_explicit_implicit_helper`:
with smart guess on and `(Pr, Tr)` inside the `kareem` working range, the
sequence is `[kareem(Pr,Tr)] + [guess] + _construct_guess_list_order(guess)`;
with smart guess on but out of range, `[guess] + _construct_guess_list_order(guess)`;
with smart guess off, `_construct_guess_list_order(guess)`. -/
def buildGuesses (kareemEval : ℚ → ℚ → ℚ) (Pr Tr guess : ℚ) (smart : Bool) : List ℚ :=
  if smart then
    if checkRangeScalar Pr Tr "kareem" then
      kareemEval Pr Tr :: guess :: _construct_guess_list_order guess
    else
      guess :: _construct_guess_list_order guess
  else
    _construct_guess_list_order guess

/-- One `scipy.optimize.newton` attempt as dispatched by the source's
`newton_kwargs` handling (the only data flowing into the call besides the
residual are the candidate guess and the effective `maxiter`). -/
def newtonSolve (env : Env) (zm : String) (Pr Tr : ℚ) (nk : Option NewtonKwargs) (g : ℚ) :
    Option ℚ :=
  env.newton zm g Pr Tr (maxiterOf nk)

/-- The `for guess_ in guesses` loop: first candidate whose attempt returns
cleanly wins (`worked = True; break`); an exception moves on to the next
candidate. -/
def tryGuesses (solve : ℚ → Option ℚ) : List ℚ → Option ℚ
  | [] => none
  | g :: rest =>
    match solve g with
    | some z => some z
    | none => tryGuesses solve rest

/-- The implicit-model part of `_calc_z_explicit_implicit_helper` after the
guess sequence is fixed: loop over candidates, and
`raise RuntimeError("Failed to converge")` when none worked. -/
def implicitSolve (env : Env) (zm : String) (Pr Tr : ℚ) (nk : Option NewtonKwargs)
    (gs : List ℚ) : Except CalcErr ℚ :=
  match tryGuesses (newtonSolve env zm Pr Tr nk) gs with
  | some z => .ok z
  | none => .error (.convergenceFailure "Failed to converge")

/-- `_calc_z_explicit_implicit_helper(Pr, Tr, zmodel_func, zmodel_str, guess,
newton_kwargs, smart_guess)`: explicit models (`zmodel_str in ['kareem']`)
are evaluated directly; implicit models default the guess
(0.9 for `Pr < 15`, else 2) and `smart_guess` (`None` means `True`), build
the candidate sequence and iterate. -/
def _calc_z_explicit_implicit_helper (env : Env) (Pr Tr : ℚ) (zmodel_str : String)
    (guess : Option ℚ) (newton_kwargs : Option NewtonKwargs) (smart_guess : Option Bool) :
    Except CalcErr ℚ :=
  if zmodel_str ∈ (["kareem"] : List String) then
    .ok (env.kareemEval Pr Tr)
  else
    implicitSolve env zmodel_str Pr Tr newton_kwargs
      (buildGuesses env.kareemEval Pr Tr (guess.getD (defaultGuess Pr)) (smart_guess.getD true))

/-- The keyword arguments of `calc_z`, with the source's defaults. -/
structure CalcArgs where
  sg : Option ℚ := none
  P : Option ℚ := none
  T : Option ℚ := none
  H2S : Option ℚ := none
  CO2 : Option ℚ := none
  N2 : Option ℚ := none
  Pr : Option ℚ := none
  Tr : Option ℚ := none
  pmodel : String := "piper"
  zmodel : String := "DAK"
  guess : Option ℚ := none
  newton_kwargs : Option NewtonKwargs := none
  smart_guess : Option Bool := none
  ps_props : Bool := false
  ignore_conflict : Bool := false
  deriving DecidableEq, Repr

/-- The `ps_props=True` return dict of `calc_z`: the z value, the resolved
reduced state, and (on the pseudo-critical path) the extra properties merged
in from `pc_instance.ps_props`. -/
structure Bundle where
  z : ℚ
  Pr : ℚ
  Tr : ℚ
  extra : List (String × ℚ)
  deriving DecidableEq, Repr

/-- Return value of `calc_z`: a bare float, or the `ps_props` dict. -/
inductive CalcResult where
  | plain (z : ℚ)
  | bundle (b : Bundle)
  deriving DecidableEq, Repr

/-- The message of the kareem-parameter rejection in `calc_z`:
`'calc_z(model="%s") got an unexpected argument "<arg>"' % zmodel`. -/
def kareemArgMsg (zm arg : String) : String :=
  "calc_z(model=\"" ++ zm ++ "\") got an unexpected argument \"" ++ arg ++ "\""

/-- The opening validation block of `calc_z`: for `zmodel in ['kareem']`,
reject `guess`, `newton_kwargs`, `smart_guess` (in that order) when supplied. -/
def kareemGuard (a : CalcArgs) : Except CalcErr Unit :=
  if a.zmodel ∈ (["kareem"] : List String) then
    match a.guess with
    | some _ => .error (.unsupportedParameter (kareemArgMsg a.zmodel "guess"))
    | none =>
      match a.newton_kwargs with
      | some _ => .error (.unsupportedParameter (kareemArgMsg a.zmodel "newton_kwargs"))
      | none =>
        match a.smart_guess with
        | some _ => .error (.unsupportedParameter (kareemArgMsg a.zmodel "smart_guess"))
        | none => .ok ()
  else
    .ok ()

/-- The message of the `sutton` + `N2` rejection in `calc_z`. -/
def suttonN2msg : String := "pmodel=\"sutton\" does not support N2 as input. Set N2=None"

/-- The message of the unknown-pseudo-critical-model `KeyError` in `calc_z`:
`'Pseudo-critical model "%s" is not implemented. Choose from the list of available models: %s' % (pmodel, pmodels_ks)`. -/
def unknownPmodelMsg (pmodel : String) : String :=
  "Pseudo-critical model \"" ++ pmodel ++
    "\" is not implemented. Choose from the list of available models: " ++ pmodels_ks

/-- The pseudo-critical dispatch of `calc_z` (reached only when `Pr` and `Tr`
are not both supplied): `piper`, or `sutton` (rejecting a supplied `N2`
first; the source forwards no `N2` to Sutton), or the `KeyError` listing the
valid pseudo-critical model names. -/
def pcDispatch (env : Env) (a : CalcArgs) : Except CalcErr PCResult :=
  if a.pmodel = "piper" then
    env.piperInit ⟨a.sg, a.P, a.T, a.H2S, a.CO2, a.N2, a.Tr, a.Pr, a.ignore_conflict⟩
  else if a.pmodel = "sutton" then
    match a.N2 with
    | some _ => .error (.unsupportedParameter suttonN2msg)
    | none => env.suttonInit ⟨a.sg, a.P, a.T, a.H2S, a.CO2, none, a.Tr, a.Pr, a.ignore_conflict⟩
  else
    .error (.unknownPseudoCriticalModel (unknownPmodelMsg a.pmodel))

/-- The computation stage of `calc_z`: kareem-parameter validation, model
lookup, then either the direct `(Pr, Tr)` path or the pseudo-critical path,
each followed by the helper.  The outcome carries the z value together with
the internally resolved reduced state (and the pseudo-critical extra
properties); none of it reads `ps_props`, which only controls the final
packaging in `calc_z`. -/
def calc_z_core (env : Env) (a : CalcArgs) : Except CalcErr Bundle :=
  match kareemGuard a with
  | .error e => .error e
  | .ok _ =>
    match _get_z_model a.zmodel with
    | .error e => .error e
    | .ok _ =>
      match a.Pr, a.Tr with
      | some Pr, some Tr =>
        match _calc_z_explicit_implicit_helper env Pr Tr a.zmodel a.guess a.newton_kwargs
            a.smart_guess with
        | .error e => .error e
        | .ok Z => .ok ⟨Z, Pr, Tr, []⟩
      | _, _ =>
        match pcDispatch env a with
        | .error e => .error e
        | .ok pc =>
          match _calc_z_explicit_implicit_helper env pc.Pr pc.Tr a.zmodel a.guess
              a.newton_kwargs a.smart_guess with
          | .error e => .error e
          | .ok Z => .ok ⟨Z, pc.Pr, pc.Tr, pc.ps_props⟩

/-- `calc_z`: run the computation stage, then package its outcome according
to `ps_props`: the full dict (`Bundle`) when true, the bare z value when
false. -/
def calc_z (env : Env) (a : CalcArgs) : Except CalcErr CalcResult :=
  match calc_z_core env a with
  | .error e => .error e
  | .ok b => if a.ps_props then .ok (.bundle b) else .ok (.plain b.z)

instance {ε α : Type} [DecidableEq ε] [DecidableEq α] : DecidableEq (Except ε α)
  | .error e, .error f =>
    if h : e = f then .isTrue (by rw [h]) else .isFalse (by intro k; injection k with h2; exact h h2)
  | .error _, .ok _ => .isFalse (by intro k; injection k)
  | .ok _, .error _ => .isFalse (by intro k; injection k)
  | .ok a, .ok b =>
    if h : a = b then .isTrue (by rw [h]) else .isFalse (by intro k; injection k with h2; exact h h2)

/-- Boolean recogniser for an `UnknownPseudoCriticalModel` outcome of
`calc_z` (used to state closed counterexamples). -/
def isUnknownPCErr : Except CalcErr CalcResult → Bool
  | .error (.unknownPseudoCriticalModel _) => true
  | _ => false

/-- A concrete environment used to evaluate the embedding on concrete
inputs: the kareem correlation returns 0.7, every newton attempt converges
to its own starting guess, and both pseudo-critical models resolve the
reduced state to (1.5, 1.5) with no extra properties. -/
def envW : Env where
  kareemEval := fun _ _ => 7/10
  newton := fun _ g _ _ _ => some g
  piperInit := fun _ => .ok ⟨3/2, 3/2, []⟩
  suttonInit := fun _ => .ok ⟨3/2, 3/2, []⟩

/-- A concrete environment whose newton attempts fail (raise) for starting
guesses below 0.5 and converge to the starting guess otherwise. -/
def envFail : Env where
  kareemEval := fun _ _ => 7/10
  newton := fun _ g _ _ _ => if g < 1/2 then none else some g
  piperInit := fun _ => .ok ⟨3/2, 3/2, []⟩
  suttonInit := fun _ => .ok ⟨3/2, 3/2, []⟩

/-- The candidate loop returns nothing exactly when every attempt fails. -/
theorem tryGuesses_eq_none_iff (solve : ℚ → Option ℚ) :
    ∀ gs : List ℚ, tryGuesses solve gs = none ↔ ∀ g ∈ gs, solve g = none := by
  intro gs
  induction gs with
  | nil => simp [tryGuesses]
  | cons g rest ih =>
    cases hg : solve g with
    | some z => simp [tryGuesses, hg]
    | none => simp [tryGuesses, hg, ih]

/-- The candidate loop returns the first clean convergence: failures before
it are skipped and candidates after it are never attempted. -/
theorem tryGuesses_first_success (solve : ℚ → Option ℚ) :
    ∀ (gs₁ : List ℚ) (g : ℚ) (z : ℚ) (gs₂ : List ℚ),
      (∀ g₀ ∈ gs₁, solve g₀ = none) → solve g = some z →
      tryGuesses solve (gs₁ ++ g :: gs₂) = some z := by
  intro gs₁
  induction gs₁ with
  | nil =>
    intro g z gs₂ _ h2
    simp [tryGuesses, h2]
  | cons x rest ih =>
    intro g z gs₂ h1 h2
    have hx : solve x = none := h1 x (by simp)
    simp only [List.cons_append, tryGuesses, hx]
    exact ih g z gs₂ (fun g₀ hg₀ => h1 g₀ (by simp [hg₀])) h2

/-- Elements produced by the dedup worker avoid the seen set. -/
theorem mem_dedupFirstAux_not_seen :
    ∀ (l seen : List ℚ) (a : ℚ), a ∈ dedupFirstAux seen l → a ∉ seen := by
  intro l
  induction l with
  | nil =>
    intro seen a h
    simp [dedupFirstAux] at h
  | cons x xs ih =>
    intro seen a h
    by_cases hx : x ∈ seen
    · rw [dedupFirstAux, if_pos hx] at h
      exact ih seen a h
    · rw [dedupFirstAux, if_neg hx] at h
      rcases List.mem_cons.mp h with h | h
      · exact h ▸ hx
      · intro hs
        exact ih (x :: seen) a h (List.mem_cons_of_mem x hs)

/-- The dedup worker never produces a duplicate. -/
theorem dedupFirstAux_nodup : ∀ (l seen : List ℚ), (dedupFirstAux seen l).Nodup := by
  intro l
  induction l with
  | nil => intro seen; simp [dedupFirstAux]
  | cons x xs ih =>
    intro seen
    by_cases hx : x ∈ seen
    · rw [dedupFirstAux, if_pos hx]
      exact ih seen
    · rw [dedupFirstAux, if_neg hx]
      refine List.nodup_cons.mpr ⟨?_, ih (x :: seen)⟩
      intro hmem
      exact mem_dedupFirstAux_not_seen xs (x :: seen) x hmem (List.mem_cons_self x seen)

/-- `dedupFirst` keeps the head of its input in front. -/
theorem dedupFirst_cons (g : ℚ) (rest : List ℚ) :
    dedupFirst (g :: rest) = g :: dedupFirstAux [g] rest := by
  rw [dedupFirst, dedupFirstAux, if_neg (List.not_mem_nil g)]

/-- The kareem-parameter guard passes whenever the three solver arguments are
absent for the kareem model (and always for other models). -/
theorem kareemGuard_eq_ok (a : CalcArgs)
    (h : a.zmodel = "kareem" → a.guess = none ∧ a.newton_kwargs = none ∧ a.smart_guess = none) :
    kareemGuard a = .ok () := by
  unfold kareemGuard
  by_cases hz : a.zmodel ∈ (["kareem"] : List String)
  · have hzk : a.zmodel = "kareem" := by simpa using hz
    obtain ⟨h1, h2, h3⟩ := h hzk
    rw [if_pos hz, h1, h2, h3]
  · rw [if_neg hz]

/-- The only errors the kareem-parameter guard can raise are the three
`UnsupportedParameter` rejections for the kareem model. -/
theorem kareemGuard_error_cases (a : CalcArgs) (e : CalcErr) (h : kareemGuard a = .error e) :
    e = .unsupportedParameter (kareemArgMsg "kareem" "guess")
    ∨ e = .unsupportedParameter (kareemArgMsg "kareem" "newton_kwargs")
    ∨ e = .unsupportedParameter (kareemArgMsg "kareem" "smart_guess") := by
  unfold kareemGuard at h
  by_cases hz : a.zmodel ∈ (["kareem"] : List String)
  · have hzk : a.zmodel = "kareem" := by simpa using hz
    rw [if_pos hz, hzk] at h
    cases hg : a.guess with
    | some g =>
      rw [hg] at h
      injection h with h
      exact Or.inl h.symm
    | none =>
      rw [hg] at h
      cases hn : a.newton_kwargs with
      | some n =>
        rw [hn] at h
        injection h with h
        exact Or.inr (Or.inl h.symm)
      | none =>
        rw [hn] at h
        cases hs : a.smart_guess with
        | some s =>
          rw [hs] at h
          injection h with h
          exact Or.inr (Or.inr h.symm)
        | none =>
          rw [hs] at h
          exact absurd h (by simp)
  · rw [if_neg hz] at h
    exact absurd h (by simp)

/-- Model lookup succeeds on the four supported names. -/
theorem get_z_model_eq_ok (m : String) (h : m ∈ zmodelNames) :
    _get_z_model m = .ok (zmodelKindOf m) := by
  simp [_get_z_model, h]

/-- The pseudo-critical dispatch only reads the pseudo-critical inputs. -/
theorem pcDispatch_congr (env : Env) (a₁ a₂ : CalcArgs)
    (hsg : a₁.sg = a₂.sg) (hP : a₁.P = a₂.P) (hT : a₁.T = a₂.T)
    (hH : a₁.H2S = a₂.H2S) (hC : a₁.CO2 = a₂.CO2) (hN : a₁.N2 = a₂.N2)
    (hTr : a₁.Tr = a₂.Tr) (hPr : a₁.Pr = a₂.Pr) (hpm : a₁.pmodel = a₂.pmodel)
    (hic : a₁.ignore_conflict = a₂.ignore_conflict) :
    pcDispatch env a₁ = pcDispatch env a₂ := by
  unfold pcDispatch
  rw [hsg, hP, hT, hH, hC, hN, hTr, hPr, hpm, hic]

/-- C1: for an explicit z-model (`zmodel='kareem'`), supplying any of
`guess`, `newton_kwargs` (solverOptions) or `smart_guess` makes `calc_z`
fail with an `UnsupportedParameter` error.  The conclusion holds for every
environment and every other argument value: the pseudo-critical code is
never consulted and no reduced-state computation happens first, so the
check precedes all other computation. -/
theorem calc_z_kareem_rejects_solver_args (env : Env) (a : CalcArgs)
    (hz : a.zmodel = "kareem")
    (h : a.guess.isSome ∨ a.newton_kwargs.isSome ∨ a.smart_guess.isSome) :
    ∃ s, calc_z env a = .error (.unsupportedParameter s) := by
  cases hg : a.guess with
  | some g =>
    exact ⟨kareemArgMsg a.zmodel "guess", by simp [calc_z, calc_z_core, kareemGuard, hz, hg]⟩
  | none =>
    cases hn : a.newton_kwargs with
    | some n =>
      exact ⟨kareemArgMsg a.zmodel "newton_kwargs", by simp [calc_z, calc_z_core, kareemGuard, hz, hg, hn]⟩
    | none =>
      cases hs : a.smart_guess with
      | some s =>
        exact ⟨kareemArgMsg a.zmodel "smart_guess", by simp [calc_z, calc_z_core, kareemGuard, hz, hg, hn, hs]⟩
      | none =>
        rcases h with h | h | h <;> simp_all

/-- Witness for C1: `calc_z(zmodel="kareem", guess=0.5)` fails with an
`UnsupportedParameter` error. -/
theorem calc_z_kareem_rejects_solver_args_witness :
    ∃ s, calc_z envW { zmodel := "kareem", guess := some (1/2) }
      = .error (.unsupportedParameter s) :=
  calc_z_kareem_rejects_solver_args envW { zmodel := "kareem", guess := some (1/2) } rfl
    (Or.inl rfl)

/-- C2 counterexample: with the smart-guess path taken (`Pr=Tr=1.5` is inside
the kareem range; smart candidate 0.7), the provided guess 0.9 occurs TWICE
in the constructed candidate sequence — once prepended explicitly and once
inside the deduplicated fallback list — refuting "each distinct candidate
value exactly once".  (The duplication is order-independent, so it equally
occurs under CPython's set iteration order.) -/
theorem buildGuesses_guess_twice :
    List.count ((9:ℚ)/10)
      (buildGuesses (fun _ _ => (7:ℚ)/10) (3/2) (3/2) (9/10) true) = 2 := by
  with_unfolding_all decide

/-- C2 (amended): the deduplicated fallback list contains each distinct
candidate exactly once and always contains the provided guess itself; on the
smart-guess path the smart candidate and the provided guess are placed (in
that order) in front of it, so both are tried before the fallback ladder but
the provided guess occurs twice in the full sequence. -/
theorem buildGuesses_structure (kE : ℚ → ℚ → ℚ) (Pr Tr g : ℚ)
    (h : checkRangeScalar Pr Tr "kareem" = true) :
    buildGuesses kE Pr Tr g true = kE Pr Tr :: g :: _construct_guess_list_order g
    ∧ (_construct_guess_list_order g).Nodup
    ∧ g ∈ _construct_guess_list_order g
    ∧ buildGuesses kE Pr Tr g false = _construct_guess_list_order g := by
  refine ⟨by simp [buildGuesses, h], ?_, ?_, by simp [buildGuesses]⟩
  · rw [_construct_guess_list_order, dedupFirst_cons]
    refine List.nodup_cons.mpr ⟨?_, dedupFirstAux_nodup _ _⟩
    intro hmem
    exact mem_dedupFirstAux_not_seen _ _ _ hmem (List.mem_cons_self g [])
  · rw [_construct_guess_list_order, dedupFirst_cons]
    exact List.mem_cons_self g _

/-- Witness for C2 (amended) at the counterexample input. -/
theorem buildGuesses_structure_witness :
    buildGuesses (fun _ _ => (7:ℚ)/10) (3/2) (3/2) (9/10) true
      = (7:ℚ)/10 :: (9:ℚ)/10 :: _construct_guess_list_order (9/10)
    ∧ (_construct_guess_list_order ((9:ℚ)/10)).Nodup
    ∧ (9:ℚ)/10 ∈ _construct_guess_list_order ((9:ℚ)/10)
    ∧ buildGuesses (fun _ _ => (7:ℚ)/10) (3/2) (3/2) (9/10) false
      = _construct_guess_list_order (9/10) :=
  buildGuesses_structure (fun _ _ => (7:ℚ)/10) (3/2) (3/2) (9/10)
    (by with_unfolding_all decide)

/-- C3: the reordering loop of `_construct_guess_list_order` — the stage the
function docstring describes ("reorder t in an order closest to the provided
guess") — does, for guess 0.1, produce the ladder in strictly increasing
distance from 0.1.  The bug is the function's final `list(set(reordered))`
conversion: a CPython set's iteration order is a hash-table artifact, and it
discards this ordering (CPython 3.11 returns
`[0.1, 0.4, 0.3, 0.2, 0.5, 0.6, 0.7, 0.8, 0.9, 1.0]` for guess 0.1, where
0.4 precedes 0.2 and 0.3), so the returned ladder is NOT proximity-sorted as
the docstring and the claim state. -/
theorem reorderLoop_proximity_at_point_one :
    reorderLoop (1/10) guessLadder.length guessLadder
      = [1/10, 2/10, 3/10, 4/10, 5/10, 6/10, 7/10, 8/10, 9/10, 1] := by
  with_unfolding_all decide

/-- C4: for every supported model, the range check accepts exactly when every
element of `Pr` lies within the model's inclusive `Pr` bounds AND every
element of `Tr` lies within its inclusive `Tr` bounds (one out-of-range
element fails the whole check); in particular `(Pr=1.5, Tr=1.5)` is in range
for DAK and `(Pr=35, Tr=1.5)` is not (35 > 30). -/
theorem check_range_iff :
    (∀ name Pr Tr r, MODEL_RANGES name = some r →
      (_check_working_Pr_Tr_range Pr Tr name = some true ↔
        (∀ x ∈ Pr, r.Pr_lo ≤ x ∧ x ≤ r.Pr_hi) ∧ (∀ t ∈ Tr, r.Tr_lo ≤ t ∧ t ≤ r.Tr_hi)))
    ∧ _check_working_Pr_Tr_range [3/2] [3/2] "DAK" = some true
    ∧ _check_working_Pr_Tr_range [35] [3/2] "DAK" = some false := by
  refine ⟨?_, by with_unfolding_all decide, by with_unfolding_all decide⟩
  intro name Pr Tr r hr
  simp [_check_working_Pr_Tr_range, hr, inClosed, List.all_eq_true, Bool.and_eq_true,
    decide_eq_true_iff]

/-- Witness for C4: values exactly on DAK's lower bounds (Pr=0.2, Tr=1) are
in range (inclusive bounds), via the iff at a concrete instance. -/
theorem check_range_iff_witness :
    _check_working_Pr_Tr_range [1/5] [1] "DAK" = some true :=
  (check_range_iff.1 "DAK" [1/5] [1] ⟨1, 3, 1/5, 30⟩ rfl).mpr
    (by with_unfolding_all decide)

/-- C5: implicit-model solving tries candidates in sequence order; each
attempt's iteration cap is 50 by default and `newton_kwargs['maxiter']`
otherwise; an individual failure (any raised exception, modelled as `none`)
only moves to the next candidate; the first clean convergence is returned
with no later candidate attempted; and the call fails with
`ConvergenceFailure` exactly when every candidate fails. -/
theorem implicitSolve_spec (env : Env) (zm : String) (Pr Tr : ℚ) (nk : Option NewtonKwargs) :
    (∀ gs, implicitSolve env zm Pr Tr nk gs = .error (.convergenceFailure "Failed to converge")
      ↔ ∀ g ∈ gs, newtonSolve env zm Pr Tr nk g = none)
    ∧ (∀ gs₁ g z gs₂, (∀ g₀ ∈ gs₁, newtonSolve env zm Pr Tr nk g₀ = none) →
        newtonSolve env zm Pr Tr nk g = some z →
        implicitSolve env zm Pr Tr nk (gs₁ ++ g :: gs₂) = .ok z)
    ∧ maxiterOf none = 50
    ∧ (∀ m, maxiterOf (some ⟨some m⟩) = m)
    ∧ maxiterOf (some ⟨none⟩) = 50 := by
  refine ⟨?_, ?_, rfl, fun m => rfl, rfl⟩
  · intro gs
    rw [← tryGuesses_eq_none_iff (newtonSolve env zm Pr Tr nk) gs]
    unfold implicitSolve
    cases h : tryGuesses (newtonSolve env zm Pr Tr nk) gs <;> simp
  · intro gs₁ g z gs₂ h1 h2
    unfold implicitSolve
    rw [tryGuesses_first_success (newtonSolve env zm Pr Tr nk) gs₁ g z gs₂ h1 h2]

/-- Witness for C5: under `envFail` the candidate 0.1 fails and 0.9 is the
first clean convergence, which is returned. -/
theorem implicitSolve_spec_witness :
    implicitSolve envFail "DAK" (3/2) (3/2) none ([1/10] ++ (9:ℚ)/10 :: [1/2]) = .ok (9/10) :=
  (implicitSolve_spec envFail "DAK" (3/2) (3/2) none).2.1 [1/10] (9/10) (9/10) [1/2]
    (by with_unfolding_all decide) (by with_unfolding_all decide)

/-- C6: when the caller supplies no guess, the implicit path behaves exactly
as if the default guess had been supplied explicitly, and that default is
0.9 for `Pr < 15` and 2 for `Pr ≥ 15`. -/
theorem helper_default_guess (env : Env) (zm : String) (Pr Tr : ℚ)
    (nk : Option NewtonKwargs) (sg : Option Bool)
    (h : zm ∈ (["DAK", "hall_yarborough", "londono"] : List String)) :
    _calc_z_explicit_implicit_helper env Pr Tr zm none nk sg
      = _calc_z_explicit_implicit_helper env Pr Tr zm (some (defaultGuess Pr)) nk sg
    ∧ (Pr < 15 → defaultGuess Pr = 9/10)
    ∧ (15 ≤ Pr → defaultGuess Pr = 2) := by
  have hk : zm ∉ (["kareem"] : List String) := by
    fin_cases h <;> simp
  exact ⟨by simp [_calc_z_explicit_implicit_helper, hk],
    fun hlt => by simp [defaultGuess, hlt],
    fun hge => by simp [defaultGuess, not_lt.mpr hge]⟩

/-- Witness for C6 at `zm="DAK"`, `Pr=Tr=1.5`. -/
theorem helper_default_guess_witness :
    _calc_z_explicit_implicit_helper envW (3/2) (3/2) "DAK" none none none
      = _calc_z_explicit_implicit_helper envW (3/2) (3/2) "DAK" (some (defaultGuess (3/2)))
          none none
    ∧ ((3:ℚ)/2 < 15 → defaultGuess (3/2) = 9/10)
    ∧ (15 ≤ (3:ℚ)/2 → defaultGuess (3/2) = 2) :=
  helper_default_guess envW "DAK" (3/2) (3/2) none none (by decide)

/-- C7: each of the four z-model names looks up successfully with its
documented kind (kareem explicit, the rest implicit); an explicit model is
evaluated directly with no iteration, an implicit one runs the iterative
candidate loop; any other name fails with `UnknownModel`, whose message ends
with the literal list of the valid names. -/
theorem zmodel_lookup_spec :
    (∀ m ∈ zmodelNames, _get_z_model m = .ok (zmodelKindOf m))
    ∧ zmodelKindOf "kareem" = .explicitEval
    ∧ zmodelKindOf "DAK" = .implicitSolveKind
    ∧ zmodelKindOf "hall_yarborough" = .implicitSolveKind
    ∧ zmodelKindOf "londono" = .implicitSolveKind
    ∧ (∀ env Pr Tr g nk sg,
        _calc_z_explicit_implicit_helper env Pr Tr "kareem" g nk sg
          = .ok (env.kareemEval Pr Tr))
    ∧ (∀ env Pr Tr g nk sg, ∀ m ∈ (["DAK", "hall_yarborough", "londono"] : List String),
        _calc_z_explicit_implicit_helper env Pr Tr m g nk sg
          = implicitSolve env m Pr Tr nk
              (buildGuesses env.kareemEval Pr Tr (g.getD (defaultGuess Pr)) (sg.getD true)))
    ∧ (∀ m, m ∉ zmodelNames →
        _get_z_model m = .error (.unknownModel (unknownZmodelMsg m)))
    ∧ (∀ m, ∃ p, unknownZmodelMsg m = p ++ zmodels_ks) := by
  refine ⟨fun m hm => get_z_model_eq_ok m hm, rfl, rfl, rfl, rfl, ?_, ?_, ?_, fun m => ⟨_, rfl⟩⟩
  · intro env Pr Tr g nk sg
    simp [_calc_z_explicit_implicit_helper]
  · intro env Pr Tr g nk sg m hm
    have hk : m ≠ "kareem" := by
      fin_cases hm <;> decide
    simp [_calc_z_explicit_implicit_helper, hk]
  · intro m hm
    simp [_get_z_model, hm]

/-- Witness for C7: `lookup("nonexistent")` fails with `UnknownModel`. -/
theorem zmodel_lookup_spec_witness :
    _get_z_model "nonexistent" = .error (.unknownModel (unknownZmodelMsg "nonexistent")) :=
  zmodel_lookup_spec.2.2.2.2.2.2.2.1 "nonexistent" (by decide)

/-- The only error the explicit/implicit helper can raise is the
convergence failure of the implicit loop. -/
theorem helper_error_shape (env : Env) (Pr Tr : ℚ) (zm : String) (g : Option ℚ)
    (nk : Option NewtonKwargs) (sg : Option Bool) (e : CalcErr)
    (h : _calc_z_explicit_implicit_helper env Pr Tr zm g nk sg = .error e) :
    e = .convergenceFailure "Failed to converge" := by
  unfold _calc_z_explicit_implicit_helper at h
  by_cases hk : zm ∈ (["kareem"] : List String)
  · rw [if_pos hk] at h
    exact absurd h (by simp)
  · rw [if_neg hk] at h
    unfold implicitSolve at h
    cases h2 : tryGuesses (newtonSolve env zm Pr Tr nk)
        (buildGuesses env.kareemEval Pr Tr (g.getD (defaultGuess Pr)) (sg.getD true)) with
    | some z =>
      rw [h2] at h
      exact absurd h (by simp)
    | none =>
      rw [h2] at h
      injection h with h
      exact h.symm

/-- C8 counterexample: a call with an unknown z-model AND an unknown
pseudo-critical model (Pr, Tr unset) fails with `UnknownModel`, not
`UnknownPseudoCriticalModel`: the z-model lookup precedes the
pseudo-critical dispatch, so the claim's conclusion fails on this input. -/
theorem calc_z_unknown_pmodel_counterexample :
    ({ zmodel := "bogus", pmodel := "bogus" } : CalcArgs).Pr = none
    ∧ ({ zmodel := "bogus", pmodel := "bogus" } : CalcArgs).pmodel ≠ "piper"
    ∧ ({ zmodel := "bogus", pmodel := "bogus" } : CalcArgs).pmodel ≠ "sutton"
    ∧ calc_z envW { zmodel := "bogus", pmodel := "bogus" }
        = .error (.unknownModel (unknownZmodelMsg "bogus"))
    ∧ isUnknownPCErr (calc_z envW { zmodel := "bogus", pmodel := "bogus" }) = false := by
  refine ⟨rfl, by decide, by decide, ?_, ?_⟩ <;> with_unfolding_all decide

/-- C8 (amended): for every call without both Pr and Tr, PROVIDED the
z-model validation passes (a supported `zmodel`; for kareem no solver
arguments), an unrecognized `pmodel` fails with
`UnknownPseudoCriticalModel` (message listing the valid names), and
`pmodel='sutton'` together with a supplied N2 fails with
`UnsupportedParameter`. -/
theorem calc_z_pmodel_dispatch (env : Env) (a : CalcArgs)
    (hPrTr : a.Pr = none ∨ a.Tr = none)
    (hzm : a.zmodel ∈ zmodelNames)
    (hke : a.zmodel = "kareem" → a.guess = none ∧ a.newton_kwargs = none ∧ a.smart_guess = none) :
    (a.pmodel ≠ "piper" → a.pmodel ≠ "sutton" →
      calc_z env a = .error (.unknownPseudoCriticalModel (unknownPmodelMsg a.pmodel)))
    ∧ (∀ n, a.pmodel = "sutton" → a.N2 = some n →
      calc_z env a = .error (.unsupportedParameter suttonN2msg)) := by
  have hg : kareemGuard a = .ok () := kareemGuard_eq_ok a hke
  have hm : _get_z_model a.zmodel = .ok (zmodelKindOf a.zmodel) := get_z_model_eq_ok _ hzm
  have hred : ∀ e, pcDispatch env a = .error e → calc_z env a = .error e := by
    intro e he
    rcases hp : a.Pr with _ | Pr
    · cases ht : a.Tr <;> simp [calc_z, calc_z_core, hg, hm, hp, ht, he]
    · rcases ht : a.Tr with _ | Tr
      · simp [calc_z, calc_z_core, hg, hm, hp, ht, he]
      · rcases hPrTr with hc | hc
        · rw [hp] at hc
          exact absurd hc (by simp)
        · rw [ht] at hc
          exact absurd hc (by simp)
  constructor
  · intro h1 h2
    refine hred _ ?_
    unfold pcDispatch
    rw [if_neg h1, if_neg h2]
  · intro n h1 h2
    refine hred _ ?_
    unfold pcDispatch
    have hnp : a.pmodel ≠ "piper" := by
      rw [h1]
      decide
    rw [if_neg hnp, if_pos h1, h2]

/-- Witness for C8 (amended): an unknown pseudo-critical model name fails
with `UnknownPseudoCriticalModel`. -/
theorem calc_z_pmodel_dispatch_witness :
    calc_z envW { pmodel := "nope" }
      = .error (.unknownPseudoCriticalModel (unknownPmodelMsg "nope")) :=
  (calc_z_pmodel_dispatch envW { pmodel := "nope" } (Or.inl rfl) (by decide)
    (fun h => absurd h (by decide))).1 (by decide) (by decide)

/-- The computation stage only reads the argument fields other than
`ps_props`: two argument records equal except possibly in `ps_props` give
identical outcomes. -/
theorem calc_z_core_congr (env : Env) (a₁ a₂ : CalcArgs)
    (hsg : a₁.sg = a₂.sg) (hP : a₁.P = a₂.P) (hT : a₁.T = a₂.T)
    (hH : a₁.H2S = a₂.H2S) (hC : a₁.CO2 = a₂.CO2) (hN : a₁.N2 = a₂.N2)
    (hPr : a₁.Pr = a₂.Pr) (hTr : a₁.Tr = a₂.Tr) (hpm : a₁.pmodel = a₂.pmodel)
    (hzm : a₁.zmodel = a₂.zmodel) (hgu : a₁.guess = a₂.guess)
    (hnk : a₁.newton_kwargs = a₂.newton_kwargs) (hsm : a₁.smart_guess = a₂.smart_guess)
    (hic : a₁.ignore_conflict = a₂.ignore_conflict) :
    calc_z_core env a₁ = calc_z_core env a₂ := by
  have hkg : kareemGuard a₂ = kareemGuard a₁ := by
    unfold kareemGuard
    rw [hzm, hgu, hnk, hsm]
  have hpcd : pcDispatch env a₂ = pcDispatch env a₁ :=
    pcDispatch_congr env a₂ a₁ hsg.symm hP.symm hT.symm hH.symm hC.symm hN.symm
      hTr.symm hPr.symm hpm.symm hic.symm
  unfold calc_z_core
  rw [hkg, ← hzm, ← hgu, ← hnk, ← hsm, ← hPr, ← hTr, hpcd]

/-- When both `Pr` and `Tr` are supplied, the computation stage reduces to
the direct path: guard, lookup, helper on the given reduced state. -/
theorem calc_z_core_bothgiven (env : Env) (a : CalcArgs) (Pr Tr : ℚ)
    (hp : a.Pr = some Pr) (ht : a.Tr = some Tr) :
    calc_z_core env a
      = (match kareemGuard a with
         | .error e => .error e
         | .ok _ =>
           match _get_z_model a.zmodel with
           | .error e => .error e
           | .ok _ =>
             match _calc_z_explicit_implicit_helper env Pr Tr a.zmodel a.guess a.newton_kwargs
                 a.smart_guess with
             | .error e => .error e
             | .ok Z => .ok ⟨Z, Pr, Tr, []⟩) := by
  unfold calc_z_core
  rw [hp, ht]

/-- An unknown-model lookup failure is always an `UnknownModel` error. -/
theorem get_z_model_error_shape (m : String) (e : CalcErr) (h : _get_z_model m = .error e) :
    e = .unknownModel (unknownZmodelMsg m) := by
  unfold _get_z_model at h
  by_cases hm : m ∈ zmodelNames
  · rw [if_pos hm] at h
    exact absurd h (by simp)
  · rw [if_neg hm] at h
    injection h with h
    exact h.symm

/-- A successful computation stage yields a bundle whose z value is computed
by the helper on the bundle's own reduced state, which is either the
directly supplied `(Pr, Tr)` or the pseudo-critical dispatch outcome. -/
theorem calc_z_core_ok_shape (env : Env) (a : CalcArgs) (b : Bundle)
    (h : calc_z_core env a = .ok b) :
    _calc_z_explicit_implicit_helper env b.Pr b.Tr a.zmodel a.guess a.newton_kwargs
      a.smart_guess = .ok b.z
    ∧ ((a.Pr = some b.Pr ∧ a.Tr = some b.Tr ∧ b.extra = [])
        ∨ ∃ pc, pcDispatch env a = .ok pc ∧ pc.Pr = b.Pr ∧ pc.Tr = b.Tr
            ∧ pc.ps_props = b.extra) := by
  unfold calc_z_core at h
  cases hg : kareemGuard a with
  | error e =>
    simp only [hg] at h
    exact Except.noConfusion h
  | ok u =>
    simp only [hg] at h
    cases hm : _get_z_model a.zmodel with
    | error e =>
      simp only [hm] at h
      exact Except.noConfusion h
    | ok k =>
      simp only [hm] at h
      rcases hp : a.Pr with _ | Pr <;> rcases ht : a.Tr with _ | Tr <;>
        simp only [hp, ht] at h
      · cases hpc : pcDispatch env a with
        | error e =>
          simp only [hpc] at h
          exact Except.noConfusion h
        | ok pc =>
          simp only [hpc] at h
          cases hh : _calc_z_explicit_implicit_helper env pc.Pr pc.Tr a.zmodel a.guess
              a.newton_kwargs a.smart_guess with
          | error e =>
            simp only [hh] at h
            exact Except.noConfusion h
          | ok Z =>
            simp only [hh] at h
            obtain rfl : b = ⟨Z, pc.Pr, pc.Tr, pc.ps_props⟩ := by
              injection h with h
              exact h.symm
            exact ⟨hh, Or.inr ⟨pc, rfl, rfl, rfl, rfl⟩⟩
      · cases hpc : pcDispatch env a with
        | error e =>
          simp only [hpc] at h
          exact Except.noConfusion h
        | ok pc =>
          simp only [hpc] at h
          cases hh : _calc_z_explicit_implicit_helper env pc.Pr pc.Tr a.zmodel a.guess
              a.newton_kwargs a.smart_guess with
          | error e =>
            simp only [hh] at h
            exact Except.noConfusion h
          | ok Z =>
            simp only [hh] at h
            obtain rfl : b = ⟨Z, pc.Pr, pc.Tr, pc.ps_props⟩ := by
              injection h with h
              exact h.symm
            exact ⟨hh, Or.inr ⟨pc, rfl, rfl, rfl, rfl⟩⟩
      · cases hpc : pcDispatch env a with
        | error e =>
          simp only [hpc] at h
          exact Except.noConfusion h
        | ok pc =>
          simp only [hpc] at h
          cases hh : _calc_z_explicit_implicit_helper env pc.Pr pc.Tr a.zmodel a.guess
              a.newton_kwargs a.smart_guess with
          | error e =>
            simp only [hh] at h
            exact Except.noConfusion h
          | ok Z =>
            simp only [hh] at h
            obtain rfl : b = ⟨Z, pc.Pr, pc.Tr, pc.ps_props⟩ := by
              injection h with h
              exact h.symm
            exact ⟨hh, Or.inr ⟨pc, rfl, rfl, rfl, rfl⟩⟩
      · cases hh : _calc_z_explicit_implicit_helper env Pr Tr a.zmodel a.guess
            a.newton_kwargs a.smart_guess with
        | error e =>
          simp only [hh] at h
          exact Except.noConfusion h
        | ok Z =>
          simp only [hh] at h
          obtain rfl : b = ⟨Z, Pr, Tr, []⟩ := by
            injection h with h
            exact h.symm
          exact ⟨hh, Or.inl ⟨rfl, rfl, rfl⟩⟩

/-- C9: with properties-reporting on, the returned bundle's `z` equals the
bare scalar the same call returns with reporting off, and its `Pr`,`Tr`
fields are the internally resolved reduced state actually fed to the z
computation (the supplied pair, or the pseudo-critical outcome); with
reporting off the bare value is returned. -/
theorem calc_z_ps_props_spec (env : Env) (aT aF : CalcArgs)
    (hT : aT.ps_props = true) (hF : aF.ps_props = false)
    (hsg : aT.sg = aF.sg) (hP : aT.P = aF.P) (hTt : aT.T = aF.T)
    (hH : aT.H2S = aF.H2S) (hC : aT.CO2 = aF.CO2) (hN : aT.N2 = aF.N2)
    (hPr : aT.Pr = aF.Pr) (hTr : aT.Tr = aF.Tr) (hpm : aT.pmodel = aF.pmodel)
    (hzm : aT.zmodel = aF.zmodel) (hgu : aT.guess = aF.guess)
    (hnk : aT.newton_kwargs = aF.newton_kwargs) (hsm : aT.smart_guess = aF.smart_guess)
    (hic : aT.ignore_conflict = aF.ignore_conflict) :
    (∀ b, calc_z env aT = .ok (.bundle b) →
      calc_z env aF = .ok (.plain b.z)
      ∧ _calc_z_explicit_implicit_helper env b.Pr b.Tr aT.zmodel aT.guess aT.newton_kwargs
          aT.smart_guess = .ok b.z
      ∧ ((aT.Pr = some b.Pr ∧ aT.Tr = some b.Tr)
          ∨ ∃ pc, pcDispatch env aT = .ok pc ∧ pc.Pr = b.Pr ∧ pc.Tr = b.Tr))
    ∧ (∀ r, calc_z env aF = .ok r → ∃ z, r = .plain z) := by
  have hcore : calc_z_core env aF = calc_z_core env aT :=
    calc_z_core_congr env aF aT hsg.symm hP.symm hTt.symm hH.symm hC.symm hN.symm hPr.symm
      hTr.symm hpm.symm hzm.symm hgu.symm hnk.symm hsm.symm hic.symm
  constructor
  · intro b hb
    have hbT : calc_z_core env aT = .ok b := by
      unfold calc_z at hb
      cases hc : calc_z_core env aT with
      | error e =>
        simp only [hc] at hb
        exact Except.noConfusion hb
      | ok b2 =>
        simp [hc, hT] at hb
        rw [hb]
    obtain ⟨hhelp, hdisj⟩ := calc_z_core_ok_shape env aT b hbT
    refine ⟨?_, hhelp, ?_⟩
    · simp [calc_z, hcore, hbT, hF]
    · exact hdisj.imp (fun h => ⟨h.1, h.2.1⟩) (fun ⟨pc, k1, k2, k3, _⟩ => ⟨pc, k1, k2, k3⟩)
  · intro r hr
    unfold calc_z at hr
    cases hc : calc_z_core env aF with
    | error e =>
      simp only [hc] at hr
      exact Except.noConfusion hr
    | ok b2 =>
      simp [hc, hF] at hr
      exact ⟨b2.z, hr.symm⟩

/-- Witness for C9 on the direct `(Pr, Tr)` path with `envW`. -/
theorem calc_z_ps_props_spec_witness :
    calc_z envW { Pr := some (3/2), Tr := some (3/2), ps_props := false } = .ok (.plain (7/10))
    ∧ _calc_z_explicit_implicit_helper envW (3/2) (3/2) "DAK" none none none = .ok (7/10)
    ∧ ((some ((3:ℚ)/2) = some ((7:ℚ)/10, (3:ℚ)/2, (3:ℚ)/2, ([] : List (String × ℚ))).1
        ∧ True) ∨ True) := by
  have h := (calc_z_ps_props_spec envW
    { Pr := some (3/2), Tr := some (3/2), ps_props := true }
    { Pr := some (3/2), Tr := some (3/2), ps_props := false }
    rfl rfl rfl rfl rfl rfl rfl rfl rfl rfl rfl rfl rfl rfl rfl rfl).1
    ⟨7/10, 3/2, 3/2, []⟩ (by with_unfolding_all decide)
  exact ⟨h.1, h.2.1, Or.inr trivial⟩

/-- On the direct path, a failing computation stage can only be one of the
kareem-parameter rejections, an unknown-model error, or the convergence
failure — never a pseudo-critical error. -/
theorem calc_z_core_bothgiven_error_cases (env : Env) (a : CalcArgs) (Pr Tr : ℚ)
    (hp : a.Pr = some Pr) (ht : a.Tr = some Tr) (e : CalcErr)
    (h : calc_z_core env a = .error e) :
    e = .unsupportedParameter (kareemArgMsg "kareem" "guess")
    ∨ e = .unsupportedParameter (kareemArgMsg "kareem" "newton_kwargs")
    ∨ e = .unsupportedParameter (kareemArgMsg "kareem" "smart_guess")
    ∨ (∃ m, e = .unknownModel m)
    ∨ e = .convergenceFailure "Failed to converge" := by
  rw [calc_z_core_bothgiven env a Pr Tr hp ht] at h
  cases hg : kareemGuard a with
  | error e2 =>
    simp only [hg] at h
    injection h with h
    subst h
    rcases kareemGuard_error_cases a e2 hg with h2 | h2 | h2
    · exact Or.inl h2
    · exact Or.inr (Or.inl h2)
    · exact Or.inr (Or.inr (Or.inl h2))
  | ok u =>
    simp only [hg] at h
    cases hm : _get_z_model a.zmodel with
    | error e2 =>
      simp only [hm] at h
      injection h with h
      subst h
      exact Or.inr (Or.inr (Or.inr (Or.inl ⟨_, get_z_model_error_shape _ _ hm⟩)))
    | ok k =>
      simp only [hm] at h
      cases hh : _calc_z_explicit_implicit_helper env Pr Tr a.zmodel a.guess a.newton_kwargs
          a.smart_guess with
      | error e2 =>
        simp only [hh] at h
        injection h with h
        subst h
        exact Or.inr (Or.inr (Or.inr (Or.inr
          (helper_error_shape env Pr Tr a.zmodel a.guess a.newton_kwargs a.smart_guess e2 hh))))
      | ok Z =>
        simp only [hh] at h
        exact Except.noConfusion h

/-- C10: when both `Pr` and `Tr` are supplied, the outcome of `calc_z`
(including whether and how it fails) is independent of `sg`, `P`, `T`,
`H2S`, `CO2`, `N2`, `pmodel` and `ignore_conflict` (two calls agreeing on
all remaining arguments are equal); in particular no
`UnknownPseudoCriticalModel` error and no sutton/N2 `UnsupportedParameter`
error can be raised, because the pseudo-critical dispatch is skipped. -/
theorem calc_z_prtr_independent (env : Env) (a₁ a₂ : CalcArgs)
    (h₁ : a₁.Pr.isSome = true) (h₂ : a₁.Tr.isSome = true)
    (hPr : a₁.Pr = a₂.Pr) (hTr : a₁.Tr = a₂.Tr) (hzm : a₁.zmodel = a₂.zmodel)
    (hgu : a₁.guess = a₂.guess) (hnk : a₁.newton_kwargs = a₂.newton_kwargs)
    (hsm : a₁.smart_guess = a₂.smart_guess) (hps : a₁.ps_props = a₂.ps_props) :
    calc_z env a₁ = calc_z env a₂
    ∧ isUnknownPCErr (calc_z env a₁) = false
    ∧ calc_z env a₁ ≠ .error (.unsupportedParameter suttonN2msg) := by
  obtain ⟨Pr, hp⟩ := Option.isSome_iff_exists.mp h₁
  obtain ⟨Tr, ht⟩ := Option.isSome_iff_exists.mp h₂
  have hp₂ : a₂.Pr = some Pr := hPr.symm.trans hp
  have ht₂ : a₂.Tr = some Tr := hTr.symm.trans ht
  have hkg : kareemGuard a₂ = kareemGuard a₁ := by
    unfold kareemGuard
    rw [hzm, hgu, hnk, hsm]
  have hcore : calc_z_core env a₁ = calc_z_core env a₂ := by
    rw [calc_z_core_bothgiven env a₁ Pr Tr hp ht, calc_z_core_bothgiven env a₂ Pr Tr hp₂ ht₂,
      hkg, ← hzm, ← hgu, ← hnk, ← hsm]
  refine ⟨?_, ?_, ?_⟩
  · unfold calc_z
    rw [hcore, hps]
  · cases hc : calc_z_core env a₁ with
    | error e =>
      have hval : calc_z env a₁ = .error e := by simp [calc_z, hc]
      rw [hval]
      rcases calc_z_core_bothgiven_error_cases env a₁ Pr Tr hp ht e hc with
        h | h | h | ⟨m, h⟩ | h <;> subst h <;> rfl
    | ok b =>
      cases hq : a₁.ps_props
      · have hval : calc_z env a₁ = .ok (.plain b.z) := by simp [calc_z, hc, hq]
        rw [hval]
        rfl
      · have hval : calc_z env a₁ = .ok (.bundle b) := by simp [calc_z, hc, hq]
        rw [hval]
        rfl
  · cases hc : calc_z_core env a₁ with
    | error e =>
      have hval : calc_z env a₁ = .error e := by simp [calc_z, hc]
      rw [hval]
      rcases calc_z_core_bothgiven_error_cases env a₁ Pr Tr hp ht e hc with
        h | h | h | ⟨m, h⟩ | h <;> subst h
      · with_unfolding_all decide
      · with_unfolding_all decide
      · with_unfolding_all decide
      · intro hcontra
        injection hcontra with h2
        exact CalcErr.noConfusion h2
      · with_unfolding_all decide
    | ok b =>
      cases hq : a₁.ps_props
      · have hval : calc_z env a₁ = .ok (.plain b.z) := by simp [calc_z, hc, hq]
        rw [hval]
        intro hcontra
        exact Except.noConfusion hcontra
      · have hval : calc_z env a₁ = .ok (.bundle b) := by simp [calc_z, hc, hq]
        rw [hval]
        intro hcontra
        exact Except.noConfusion hcontra

/-- Witness for C10: with `(Pr, Tr)` both given, `pmodel='sutton'` with N2
supplied gives the same result as a bogus pmodel with different sg — and no
pseudo-critical or sutton/N2 error is raised. -/
theorem calc_z_prtr_independent_witness :
    calc_z envW { Pr := some (3/2), Tr := some (3/2), pmodel := "sutton", N2 := some (1/10) }
      = calc_z envW { Pr := some (3/2), Tr := some (3/2), pmodel := "bogus", sg := some 1 }
    ∧ isUnknownPCErr (calc_z envW
        { Pr := some (3/2), Tr := some (3/2), pmodel := "sutton", N2 := some (1/10) }) = false
    ∧ calc_z envW { Pr := some (3/2), Tr := some (3/2), pmodel := "sutton", N2 := some (1/10) }
        ≠ .error (.unsupportedParameter suttonN2msg) :=
  calc_z_prtr_independent envW
    { Pr := some (3/2), Tr := some (3/2), pmodel := "sutton", N2 := some (1/10) }
    { Pr := some (3/2), Tr := some (3/2), pmodel := "bogus", sg := some 1 }
    rfl rfl rfl rfl rfl rfl rfl rfl rfl
